import Mathlib

/-!
Shallow embedding of the Syncthing connection/state-reconciliation engine
(`src/connector/syncthingconnection.cpp`) and proofs about it.

Modelling conventions:
* `DateTime` values (from the external c++utilities library) are modelled as
  `Nat` tick counts; the null `DateTime()` is tick count `0`, comparisons are
  numeric, matching tick semantics.
* Qt signals are modelled as an explicit `Effects` record returned next to the
  updated state: emitted error categories, issued HTTP request paths and raised
  notifications.
* JSON payloads are modelled as already-parsed records; a `ReplyOutcome`
  carries `Option payload` where `none` stands for a JSON parse failure.
* `uint64` / `unsigned int` arithmetic is modelled on `Nat` with explicit
  reduction modulo `2^64` / `2^32` where the C++ performs machine arithmetic.
* `double` arithmetic (transfer rates) is modelled exactly over `ℚ`,
  with the literal `0.008` rendered as `8/1000`.
-/

namespace Syncthing

/-- Overall connection status (`SyncthingStatus` enum). -/
inductive SyncthingStatus where
  | Disconnected
  | Reconnecting
  | Idle
  | Scanning
  | Paused
  | Synchronizing
  | BeingDestroyed
deriving DecidableEq, Repr

/-- Directory status (`SyncthingDirStatus` enum, declared in the header that is
not part of the source tree; the members used by the `.cpp` file and listed in
the data-model section of the documentation are reproduced). -/
inductive SyncthingDirStatus where
  | Unknown
  | Idle
  | Scanning
  | Synchronizing
  | OutOfSync
  | Unshared
deriving DecidableEq, Repr

/-- Device status (`SyncthingDevStatus` enum, same provenance as the directory
status enum). -/
inductive SyncthingDevStatus where
  | Unknown
  | Disconnected
  | OwnDevice
  | Idle
  | Rejected
deriving DecidableEq, Repr

/-- Error categories of the `error()` signal. -/
inductive SyncthingErrorCategory where
  | OverallConnection
  | SpecificRequest
  | Parsing
deriving DecidableEq, Repr

/-- A directory error: message and affected path (`SyncthingDirError`). -/
structure SyncthingDirError where
  message : String := ""
  path : String := ""
deriving DecidableEq, Repr

/-- One in-flight download record (`SyncthingItemDownloadProgress`). Its
constructor lives in the missing header; per the documented data model it
copies the payload's already-downloaded and total block counts verbatim
(the counts are C++ `int`s). -/
structure SyncthingItemDownloadProgress where
  fileName : String := ""
  blocksAlreadyDownloaded : Int := 0
  totalNumberOfBlocks : Int := 0
deriving DecidableEq, Repr

/-- Directory record (`SyncthingDir`). Fields are the ones the `.cpp` file
reads or writes; presentation-only fields (the human-readable download label
built via the external `dataSizeToString`) are omitted. -/
structure SyncthingDir where
  id : String := ""
  label : String := ""
  path : String := ""
  devices : List String := []
  readOnly : Bool := false
  rescanInterval : Int := -1
  ignorePermissions : Bool := false
  autoNormalize : Bool := false
  minDiskFreePercentage : Int := -1
  status : SyncthingDirStatus := SyncthingDirStatus.Unknown
  lastStatusUpdate : Nat := 0
  errors : List SyncthingDirError := []
  previousErrors : List SyncthingDirError := []
  globalBytes : Int := 0
  globalDeleted : Int := 0
  globalFiles : Int := 0
  localBytes : Int := 0
  localDeleted : Int := 0
  localFiles : Int := 0
  neededByted : Int := 0
  neededFiles : Int := 0
  downloadingItems : List SyncthingItemDownloadProgress := []
  blocksAlreadyDownloaded : Int := 0
  blocksToBeDownloaded : Int := 0
  downloadPercentage : Nat := 0
  lastScanTime : Nat := 0
  lastFileName : String := ""
  lastFileTime : Nat := 0
  lastFileDeleted : Bool := false
  progressPercentage : Int := 0
  progressRate : Int := 0
deriving DecidableEq, Repr

/-- Device record (`SyncthingDev`). -/
structure SyncthingDev where
  id : String := ""
  name : String := ""
  addresses : List String := []
  compression : String := ""
  certName : String := ""
  introducer : Bool := false
  status : SyncthingDevStatus := SyncthingDevStatus.Unknown
  paused : Bool := false
  totalIncomingTraffic : Nat := 0
  totalOutgoingTraffic : Nat := 0
  connectionAddress : String := ""
  connectionType : String := ""
  clientVersion : String := ""
  lastSeen : Nat := 0
deriving DecidableEq, Repr

/-- The state of a `SyncthingConnection` object; defaults are the member
initialisers of the constructor. Reply-pointer members are not modelled; the
auto-reconnect timer is modelled by its interval and an armed flag. -/
structure SyncthingConnection where
  syncthingUrl : String := ""
  apiKey : String := ""
  status : SyncthingStatus := SyncthingStatus.Disconnected
  keepPolling : Bool := false
  reconnecting : Bool := false
  lastEventId : Nat := 0
  trafficPollInterval : Nat := 2000
  devStatsPollInterval : Nat := 60000
  autoReconnectInterval : Nat := 0
  autoReconnectTimerActive : Bool := false
  autoReconnectTries : Nat := 0
  totalIncomingTraffic : Nat := 0
  totalOutgoingTraffic : Nat := 0
  totalIncomingRate : ℚ := 0
  totalOutgoingRate : ℚ := 0
  unreadNotifications : Bool := false
  hasConfig : Bool := false
  hasStatus : Bool := false
  configDir : String := ""
  myId : String := ""
  dirs : List SyncthingDir := []
  devs : List SyncthingDev := []
  syncedDirs : List String := []
  completedDirs : List String := []
  lastConnectionsUpdate : Nat := 0
  lastFileTime : Nat := 0
  lastFileName : String := ""
  lastFileDeleted : Bool := false
  lastErrorTime : Nat := 0
deriving DecidableEq, Repr

/-- Externally observable side effects of one completion handler call:
categories of emitted `error()` signals, HTTP request paths issued, and
notifications raised via `emitNotification` (time and message). -/
structure Effects where
  errors : List SyncthingErrorCategory := []
  requests : List String := []
  notifications : List (Nat × String) := []
deriving DecidableEq, Repr

instance : Append Effects :=
  ⟨fun a b => ⟨a.errors ++ b.errors, a.requests ++ b.requests, a.notifications ++ b.notifications⟩⟩

/-- Modelled from the spec: `isConnected()` is declared in the header that is
not part of the source tree. The state machine section and `statusText()`
treat every state other than Disconnected/Reconnecting as connected. -/
def isConnected (s : SyncthingConnection) : Bool :=
  decide (s.status ≠ SyncthingStatus.Disconnected ∧ s.status ≠ SyncthingStatus.Reconnecting)

/-- The loop of `setStatus` collecting pointers to synchronizing directories
into `m_syncedDirs` (pointer identity is modelled by directory id). -/
def collectSyncedDirs (dirs : List SyncthingDir) (synced : List String) : List String :=
  dirs.foldl
    (fun acc d =>
      if d.status = SyncthingDirStatus.Synchronizing ∧ ¬ acc.contains d.id then acc ++ [d.id]
      else acc)
    synced

/-- The status derivation of `setStatus`'s default branch: Synchronizing if any
directory synchronizes, else Scanning if any scans, else Paused if any device
is paused, else Idle. -/
def aggregateStatus (dirs : List SyncthingDir) (devs : List SyncthingDev) : SyncthingStatus :=
  if dirs.any fun d => decide (d.status = SyncthingDirStatus.Synchronizing) then
    SyncthingStatus.Synchronizing
  else if dirs.any fun d => decide (d.status = SyncthingDirStatus.Scanning) then
    SyncthingStatus.Scanning
  else if devs.any fun dev => dev.paused then
    SyncthingStatus.Paused
  else
    SyncthingStatus.Idle

/-- `SyncthingConnection::setStatus` (lines 1487-1544): terminal
BeingDestroyed state suppresses everything; Disconnected/Reconnecting are
applied directly (clearing `m_syncedDirs`); any other requested status is
recomputed from directory/device states, maintaining the synced/completed
directory sets. -/
def setStatus (s : SyncthingConnection) (requested : SyncthingStatus) : SyncthingConnection :=
  if s.status = SyncthingStatus.BeingDestroyed then s
  else if requested = SyncthingStatus.Disconnected ∨ requested = SyncthingStatus.Reconnecting then
    let s1 := { s with syncedDirs := [] }
    if s1.status ≠ requested then { s1 with status := requested } else s1
  else
    let s1 := { s with autoReconnectTries := 0 }
    let synced := collectSyncedDirs s1.dirs s1.syncedDirs
    let derived := aggregateStatus s1.dirs s1.devs
    let synced1 := if derived = SyncthingStatus.Paused then [] else synced
    let sets :=
      if derived ≠ SyncthingStatus.Synchronizing then (synced1, ([] : List String))
      else (s1.completedDirs, synced1)
    let s2 := { s1 with completedDirs := sets.1, syncedDirs := sets.2 }
    if s2.status ≠ derived then { s2 with status := derived } else s2

/-- `emitNotification` (lines 1550-1555): sets the unread flag, refreshes the
status with the current status as the requested one, and raises
`newNotification`. -/
def emitNotification (s : SyncthingConnection) (time : Nat) (message : String) :
    SyncthingConnection × Effects :=
  let s1 := { s with unreadNotifications := true }
  (setStatus s1 s1.status, { notifications := [(time, message)] })

/-- Outcome of a finished network reply: success (with `none` standing for a
JSON body that failed to parse), abort by this system, long-poll timeout, or
any other transport failure. -/
inductive ReplyOutcome (α : Type) where
  | noError (payload : Option α)
  | canceled
  | timedOut
  | otherError
deriving DecidableEq, Repr

/-- `SyncthingConnection::connect()` (lines 125-139): stops the reconnect
timer, resets the attempt counter, and when not connected clears the
reconnect/readiness flags, then either reports insufficient configuration or
issues the config and status fetches and enables polling. -/
def connect (s : SyncthingConnection) : SyncthingConnection × Effects :=
  let s0 := { s with autoReconnectTimerActive := false, autoReconnectTries := 0 }
  if isConnected s0 then (s0, {})
  else
    let s1 := { s0 with reconnecting := false, hasConfig := false, hasStatus := false }
    if s1.apiKey = "" ∨ s1.syncthingUrl = "" then
      (s1, { errors := [SyncthingErrorCategory.OverallConnection] })
    else
      ({ s1 with keepPolling := true },
       { requests := ["system/config", "system/status"] })

/-- `continueConnecting` (lines 467-478): once config and status are both read
and polling is on, issues the remaining pollers, resets the last event id and
starts the event long-poll. -/
def continueConnecting (s : SyncthingConnection) : SyncthingConnection × Effects :=
  if s.keepPolling ∧ s.hasConfig ∧ s.hasStatus then
    ({ s with lastEventId := 0 },
     { requests :=
        ["system/connections", "stats/folder", "stats/device", "system/error", "events"] })
  else (s, {})

/-- `continueReconnecting` (lines 195-224): invalidates the cached
configuration, enters Reconnecting, resets all per-connection caches and then
either reports insufficient configuration or re-issues the config and status
fetches. -/
def continueReconnecting (s : SyncthingConnection) : SyncthingConnection × Effects :=
  let s1 := setStatus s SyncthingStatus.Reconnecting
  let s2 := { s1 with
    keepPolling := true
    reconnecting := false
    lastEventId := 0
    configDir := ""
    myId := ""
    totalIncomingTraffic := 0
    totalOutgoingTraffic := 0
    totalIncomingRate := 0
    totalOutgoingRate := 0
    unreadNotifications := false
    hasConfig := false
    hasStatus := false
    dirs := []
    devs := []
    lastConnectionsUpdate := 0
    lastFileTime := 0
    lastErrorTime := 0
    lastFileName := ""
    lastFileDeleted := false }
  if s2.apiKey = "" ∨ s2.syncthingUrl = "" then
    (s2, { errors := [SyncthingErrorCategory.OverallConnection] })
  else
    (s2, { requests := ["system/config", "system/status"] })

/-- One folder entry of the parsed `system/config` payload; field names and
defaults follow the JSON keys and `toX` defaults used by `readDirs`. -/
structure DirConfigJson where
  id : String := ""
  label : String := ""
  path : String := ""
  devices : List String := []
  readOnly : Bool := false
  rescanIntervalS : Int := -1
  ignorePerms : Bool := false
  autoNormalize : Bool := false
  minDiskFreePct : Int := -1
deriving DecidableEq, Repr

/-- One device entry of the parsed `system/config` payload. -/
structure DevConfigJson where
  deviceID : String := ""
  name : String := ""
  addresses : List String := []
  compression : String := ""
  certName : String := ""
  introducer : Bool := false
deriving DecidableEq, Repr

/-- The parsed `system/config` payload. -/
structure ConfigPayload where
  folders : List DirConfigJson := []
  devices : List DevConfigJson := []
deriving DecidableEq, Repr

/-- Processing of one folder entry by `readDirs` (lines 763-789): an empty id
is skipped (`addDirInfo` returns null); otherwise `addDirInfo` recycles the
existing record with the same id from the previous `m_dirs` (or makes a fresh
one) and `readDirs` overwrites its configuration fields from the payload,
rebuilding the device-sharing set from the non-empty device ids. -/
def reconcileDir (oldDirs : List SyncthingDir) (j : DirConfigJson) : Option SyncthingDir :=
  if j.id = "" then none
  else
    let base :=
      match oldDirs.find? fun d => d.id == j.id with
      | some d => d
      | none => { id := j.id }
    some { base with
      label := j.label
      path := j.path
      devices := j.devices.filter fun devId => devId ≠ ""
      readOnly := j.readOnly
      rescanInterval := j.rescanIntervalS
      ignorePermissions := j.ignorePerms
      autoNormalize := j.autoNormalize
      minDiskFreePercentage := j.minDiskFreePct }

/-- `readDirs` builds the replacement directory list by appending the
reconciled record of each payload entry (the C++ loop `emplace_back`s at most
one record per entry), then swaps it in. -/
def readDirs (oldDirs : List SyncthingDir) (payload : List DirConfigJson) :
    List SyncthingDir :=
  payload.foldl (fun acc j => acc ++ (reconcileDir oldDirs j).toList) []

/-- Processing of one device entry by `readDevs` (lines 794-814): `addDevInfo`
recycles by id like `addDirInfo`, the configuration fields are overwritten,
and the status is reassigned: OwnDevice when the id equals `m_myId`, Unknown
otherwise. -/
def reconcileDev (oldDevs : List SyncthingDev) (myId : String) (j : DevConfigJson) :
    Option SyncthingDev :=
  if j.deviceID = "" then none
  else
    let base :=
      match oldDevs.find? fun d => d.id == j.deviceID with
      | some d => d
      | none => { id := j.deviceID }
    some { base with
      name := j.name
      addresses := j.addresses
      compression := j.compression
      certName := j.certName
      introducer := j.introducer
      status :=
        if j.deviceID = myId then SyncthingDevStatus.OwnDevice else SyncthingDevStatus.Unknown }

/-- `readDevs` builds the replacement device list analogously to `readDirs`. -/
def readDevs (oldDevs : List SyncthingDev) (myId : String) (payload : List DevConfigJson) :
    List SyncthingDev :=
  payload.foldl (fun acc j => acc ++ (reconcileDev oldDevs myId j).toList) []

/-- `readConfig` (lines 724-758): on success parses folders and devices, sets
the config readiness flag and, when not yet connected, continues connecting;
a parse failure raises a Parsing error; a canceled reply is ignored; any other
failure raises an OverallConnection error, forces Disconnected and arms the
reconnect timer when an interval is configured. -/
def readConfig (s : SyncthingConnection) (r : ReplyOutcome ConfigPayload) :
    SyncthingConnection × Effects :=
  match r with
  | ReplyOutcome.noError (some p) =>
    let s1 := { s with dirs := readDirs s.dirs p.folders }
    let s2 := { s1 with devs := readDevs s1.devs s1.myId p.devices }
    let s3 := { s2 with hasConfig := true }
    if ¬ isConnected s3 then continueConnecting s3 else (s3, {})
  | ReplyOutcome.noError none =>
    (s, { errors := [SyncthingErrorCategory.Parsing] })
  | ReplyOutcome.canceled => (s, {})
  | _ =>
    let s1 := setStatus s SyncthingStatus.Disconnected
    ({ s1 with autoReconnectTimerActive := s1.autoReconnectInterval ≠ 0 ∨ s1.autoReconnectTimerActive },
     { errors := [SyncthingErrorCategory.OverallConnection] })

/-- Replaces the first device whose id matches (the C++ loops over `m_devs`
and breaks after the first hit). -/
def updateFirstDev (devs : List SyncthingDev) (devId : String)
    (f : SyncthingDev → SyncthingDev) : List SyncthingDev :=
  match devs with
  | [] => []
  | d :: rest => if d.id = devId then f d :: rest else d :: updateFirstDev rest devId f

/-- The parsed `system/status` payload (only `myID` is read). -/
structure StatusPayload where
  myID : String := ""
deriving DecidableEq, Repr

/-- `readStatus` (lines 819-858): on success stores a changed own-device id and
promotes the matching device record to OwnDevice, sets the status readiness
flag and continues connecting; parse/transport failures raise Parsing resp.
OverallConnection errors; a canceled reply is ignored. -/
def readStatus (s : SyncthingConnection) (r : ReplyOutcome StatusPayload) :
    SyncthingConnection × Effects :=
  match r with
  | ReplyOutcome.noError (some p) =>
    let s1 :=
      if p.myID ≠ s.myId then
        { s with
          myId := p.myID
          devs := updateFirstDev s.devs p.myID
            fun d => { d with status := SyncthingDevStatus.OwnDevice } }
      else s
    continueConnecting { s1 with hasStatus := true }
  | ReplyOutcome.noError none =>
    (s, { errors := [SyncthingErrorCategory.Parsing] })
  | ReplyOutcome.canceled => (s, {})
  | _ => (s, { errors := [SyncthingErrorCategory.OverallConnection] })

/-- `uint64` subtraction: operands are reduced to 64 bits and the difference is
taken modulo `2^64` (the C++ expression `currentBytes - previousBytes` on two
`uint64` values). -/
def sub64 (a b : Nat) : Nat :=
  (a % 2 ^ 64 + (2 ^ 64 - b % 2 ^ 64)) % 2 ^ 64

/-- The transfer-rate computation of `readConnections` (lines 882-888): when a
previous sample exists (`m_lastConnectionsUpdate` not null) and the elapsed
time is non-zero, the rate is the 64-bit byte-count difference times `0.008`
divided by the elapsed seconds; otherwise it is zero. -/
def computeRate (hasPrevSample : Bool) (transferTime : ℚ) (cur prev : Nat) : ℚ :=
  if hasPrevSample = true ∧ transferTime ≠ 0 then
    ((sub64 cur prev : ℚ)) * (8 / 1000) / transferTime
  else 0

/-- Connection info of one device in the `system/connections` payload. -/
structure ConnInfoJson where
  connected : Bool := false
  paused : Bool := false
  inBytesTotal : Nat := 0
  outBytesTotal : Nat := 0
  address : String := ""
  connType : String := ""
  clientVersion : String := ""
deriving DecidableEq, Repr

/-- The parsed `system/connections` payload: the totals and the per-device
connection objects (devices absent from the map, or mapped to an empty object,
appear as missing keys here). -/
structure ConnectionsPayload where
  inBytesTotal : Nat := 0
  outBytesTotal : Nat := 0
  connections : List (String × ConnInfoJson) := []
deriving DecidableEq, Repr

/-- The per-device part of `readConnections` (lines 893-922): with a non-empty
connection object, the status moves between Disconnected/Unknown and Idle
according to the `connected` flag, an OwnDevice status is left alone, any
other status falls to Disconnected when no longer connected; the paused flag,
traffic counters and connection metadata are refreshed. -/
def applyConnectionInfo (info : Option ConnInfoJson) (dev : SyncthingDev) : SyncthingDev :=
  match info with
  | none => dev
  | some c =>
    let st :=
      match dev.status with
      | SyncthingDevStatus.OwnDevice => dev.status
      | SyncthingDevStatus.Disconnected =>
        if c.connected then SyncthingDevStatus.Idle else SyncthingDevStatus.Disconnected
      | SyncthingDevStatus.Unknown =>
        if c.connected then SyncthingDevStatus.Idle else SyncthingDevStatus.Disconnected
      | _ => if ¬ c.connected then SyncthingDevStatus.Disconnected else dev.status
    { dev with
      status := st
      paused := c.paused
      totalIncomingTraffic := c.inBytesTotal
      totalOutgoingTraffic := c.outBytesTotal
      connectionAddress := c.address
      connectionType := c.connType
      clientVersion := c.clientVersion }

/-- `readConnections` (lines 863-939); `now` is `DateTime::gmtNow()` in ticks,
so the elapsed seconds are the tick difference divided by `10^7`. On success
the rates and totals are updated, every device with a connection entry is
refreshed, the sample timestamp is stored and the poll reschedules itself
while polling is on. -/
def readConnections (s : SyncthingConnection) (now : Nat)
    (r : ReplyOutcome ConnectionsPayload) : SyncthingConnection × Effects :=
  match r with
  | ReplyOutcome.noError (some p) =>
    let transferTime : ℚ := ((now : ℚ) - (s.lastConnectionsUpdate : ℚ)) / 10 ^ 7
    let hasPrev := s.lastConnectionsUpdate ≠ 0
    let s1 := { s with
      totalIncomingRate := computeRate hasPrev transferTime p.inBytesTotal s.totalIncomingTraffic
      totalOutgoingRate := computeRate hasPrev transferTime p.outBytesTotal s.totalOutgoingTraffic
      totalIncomingTraffic := p.inBytesTotal
      totalOutgoingTraffic := p.outBytesTotal }
    let s2 := { s1 with
      devs := s1.devs.map fun d =>
        applyConnectionInfo ((p.connections.find? fun kv => kv.1 == d.id).map Prod.snd) d
      lastConnectionsUpdate := now }
    (s2, { requests := if s2.keepPolling then ["system/connections"] else [] })
  | ReplyOutcome.noError none =>
    (s, { errors := [SyncthingErrorCategory.Parsing] })
  | ReplyOutcome.canceled => (s, {})
  | _ => (s, { errors := [SyncthingErrorCategory.OverallConnection] })

/-- The `lastFile` object of one folder's statistics; `time` is the parsed
`at` timestamp, `none` when missing or malformed. -/
structure LastFileJson where
  filename : String := ""
  deleted : Bool := false
  time : Option Nat := none
deriving DecidableEq, Repr

/-- One folder's entry in the `stats/folder` payload; `lastScan` is `none`
when the timestamp is missing or malformed. -/
structure DirStatsJson where
  lastScan : Option Nat := none
  lastFile : Option LastFileJson := none
deriving DecidableEq, Repr

/-- The per-folder body of `readDirStatistics` (lines 956-989), threading the
connection-wide most-recent-file triple (time, name, deleted) through the
loop: the scan time is stored (null on parse failure), the last-file metadata
is stored when a `lastFile` object with a non-empty name is present, and the
connection-wide triple advances when this folder's file time exceeds it. -/
def applyDirStats (entry : Option DirStatsJson) (d : SyncthingDir)
    (global : Nat × String × Bool) : SyncthingDir × (Nat × String × Bool) :=
  match entry with
  | none => (d, global)
  | some st =>
    let d1 :=
      match st.lastScan with
      | some t => { d with lastScanTime := t }
      | none => { d with lastScanTime := 0 }
    match st.lastFile with
    | none => (d1, global)
    | some lf =>
      let d2 := { d1 with lastFileName := lf.filename }
      if lf.filename ≠ "" then
        let d3 := { d2 with lastFileDeleted := lf.deleted }
        match lf.time with
        | some t =>
          let d4 := { d3 with lastFileTime := t }
          if t > global.1 then (d4, (d4.lastFileTime, d4.lastFileName, d4.lastFileDeleted))
          else (d4, global)
        | none => ({ d3 with lastFileTime := 0 }, global)
      else (d2, global)

/-- `readDirStatistics` (lines 944-999). -/
def readDirStatistics (s : SyncthingConnection)
    (r : ReplyOutcome (List (String × DirStatsJson))) : SyncthingConnection × Effects :=
  match r with
  | ReplyOutcome.noError (some p) =>
    let step := s.dirs.foldl
      (fun (acc : List SyncthingDir × (Nat × String × Bool)) d =>
        let res := applyDirStats ((p.find? fun kv => kv.1 == d.id).map Prod.snd) d acc.2
        (acc.1 ++ [res.1], res.2))
      ([], (s.lastFileTime, s.lastFileName, s.lastFileDeleted))
    ({ s with
        dirs := step.1
        lastFileTime := step.2.1
        lastFileName := step.2.2.1
        lastFileDeleted := step.2.2.2 }, {})
  | ReplyOutcome.noError none =>
    (s, { errors := [SyncthingErrorCategory.Parsing] })
  | ReplyOutcome.canceled => (s, {})
  | _ => (s, { errors := [SyncthingErrorCategory.OverallConnection] })

/-- One device's entry in the `stats/device` payload. -/
structure DevStatsJson where
  lastSeen : Option Nat := none
deriving DecidableEq, Repr

/-- `readDeviceStatistics` (lines 1004-1041): stores each device's last-seen
time (null on parse failure) and reschedules itself while polling is on. -/
def readDeviceStatistics (s : SyncthingConnection)
    (r : ReplyOutcome (List (String × DevStatsJson))) : SyncthingConnection × Effects :=
  match r with
  | ReplyOutcome.noError (some p) =>
    let s1 := { s with
      devs := s.devs.map fun d =>
        match (p.find? fun kv => kv.1 == d.id).map Prod.snd with
        | none => d
        | some st =>
          match st.lastSeen with
          | some t => { d with lastSeen := t }
          | none => { d with lastSeen := 0 } }
    (s1, { requests := if s1.keepPolling then ["stats/device"] else [] })
  | ReplyOutcome.noError none =>
    (s, { errors := [SyncthingErrorCategory.Parsing] })
  | ReplyOutcome.canceled => (s, {})
  | _ => (s, { errors := [SyncthingErrorCategory.OverallConnection] })

/-- One entry of the `system/error` payload: the parsed `when` timestamp
(`none` when malformed, in which case the entry is skipped) and the message. -/
structure ErrorEntryJson where
  whenTime : Option Nat := none
  message : String := ""
deriving DecidableEq, Repr

/-- `readErrors` (lines 1046-1090): before inspecting the reply the null
last-error time is initialised to now (ignoring errors from before
connecting); on success each entry newer than the last-error time raises a
notification and advances it; the poll reschedules itself (also after a parse
error) while polling is on. -/
def readErrors (s : SyncthingConnection) (now : Nat)
    (r : ReplyOutcome (List ErrorEntryJson)) : SyncthingConnection × Effects :=
  let s0 := if s.lastErrorTime = 0 then { s with lastErrorTime := now } else s
  match r with
  | ReplyOutcome.noError payload =>
    let step :=
      match payload with
      | some entries =>
        entries.foldl
          (fun (acc : SyncthingConnection × Effects) (e : ErrorEntryJson) =>
            match e.whenTime with
            | some w =>
              if acc.1.lastErrorTime < w then
                let res := emitNotification { acc.1 with lastErrorTime := w } w e.message
                (res.1, acc.2 ++ res.2)
              else acc
            | none => acc)
          (s0, ({} : Effects))
      | none => (s0, { errors := [SyncthingErrorCategory.Parsing] })
    (step.1, step.2 ++ { requests := if step.1.keepPolling then ["system/error"] else [] })
  | ReplyOutcome.canceled => (s0, {})
  | _ => (s0, { errors := [SyncthingErrorCategory.OverallConnection] })

/-- One item of a `DownloadProgress` event's per-folder object: the block
counts the `SyncthingItemDownloadProgress` constructor copies from the JSON. -/
structure DownloadItemJson where
  blocksAlreadyDownloaded : Int := 0
  totalNumberOfBlocks : Int := 0
deriving DecidableEq, Repr

/-- The counters of a `FolderSummary` event's `summary` object. -/
structure FolderSummaryJson where
  globalBytes : Int := 0
  globalDeleted : Int := 0
  globalFiles : Int := 0
  localBytes : Int := 0
  localDeleted : Int := 0
  localFiles : Int := 0
  needByted : Int := 0
  needFiles : Int := 0
deriving DecidableEq, Repr

/-- The `data` object of an event. The C++ extracts fields from the generic
JSON object per event type; `toString` of a missing key yields the empty
string and `toInt` yields the stated default, which the field defaults mirror.
`folderItems` carries the per-folder file map of a `DownloadProgress` event
(there the whole `data` object is the folder map). -/
structure EventData where
  home : String := ""
  myID : String := ""
  folder : String := ""
  toState : String := ""
  device : String := ""
  completion : Int := 0
  current : Int := 0
  total : Int := 0
  rate : Int := 0
  summary : Option FolderSummaryJson := none
  folderErrors : List (String × String) := []
  error : String := ""
  item : String := ""
  action : String := ""
  folderItems : List (String × List (String × DownloadItemJson)) := []
deriving DecidableEq, Repr

/-- One event of the `events` long-poll payload: `id`/`time` are `none` when
missing or (for the time) malformed, matching `toInt`'s fallback and the
swallowed timestamp conversion error. -/
structure Event where
  id : Option Nat := none
  time : Option Nat := none
  eventType : String := ""
  data : EventData := {}
deriving DecidableEq, Repr

/-- Modelled from the spec: `SyncthingDir::assignStatus(QString, DateTime)`
lives in the header that is not part of the source tree. The spec's event
table says a `StateChanged` event "updates a directory's status by name", the
data model gives the status enum with a timestamp of the last transition, and
the example scenario maps the name `syncing` to Synchronizing and `idle` to
Idle. Unrecognised names map to Unknown. -/
def parseDirStatus (str : String) : SyncthingDirStatus :=
  if str = "idle" then SyncthingDirStatus.Idle
  else if str = "scanning" then SyncthingDirStatus.Scanning
  else if str = "syncing" then SyncthingDirStatus.Synchronizing
  else if str = "error" then SyncthingDirStatus.OutOfSync
  else if str = "unshared" then SyncthingDirStatus.Unshared
  else SyncthingDirStatus.Unknown

/-- Modelled from the spec: `SyncthingDir::assignStatus(SyncthingDirStatus,
DateTime)` (missing header). It stores the new status with the transition
timestamp and reports whether the status actually changed. -/
def SyncthingDir.assignStatus (d : SyncthingDir) (newStatus : SyncthingDirStatus)
    (time : Nat) : SyncthingDir × Bool :=
  if d.status ≠ newStatus then
    ({ d with status := newStatus, lastStatusUpdate := time }, true)
  else (d, false)

/-- Name-based status assignment (string overload of `assignStatus`). -/
def SyncthingDir.assignStatusStr (d : SyncthingDir) (statusName : String)
    (time : Nat) : SyncthingDir × Bool :=
  d.assignStatus (parseDirStatus statusName) time

/-- `readStartingEvent` (lines 1182-1192): stores a changed home directory and
own device id. -/
def readStartingEvent (s : SyncthingConnection) (d : EventData) :
    SyncthingConnection × Effects :=
  let s1 := if d.home ≠ s.configDir then { s with configDir := d.home } else s
  let s2 := if d.myID ≠ s1.myId then { s1 with myId := d.myID } else s1
  (s2, {})

/-- Replaces the directory at the given position. -/
def setDirAt (dirs : List SyncthingDir) (i : Nat) (d : SyncthingDir) : List SyncthingDir :=
  dirs.set i d

/-- `readStatusChangedEvent` (lines 1197-1217): updates a known directory's
status by name; an unknown directory is created bare with that status and a
config refetch is issued. -/
def readStatusChangedEvent (s : SyncthingConnection) (eventTime : Nat) (d : EventData) :
    SyncthingConnection × Effects :=
  if d.folder = "" then (s, {})
  else
    match s.dirs.findIdx? fun dir => dir.id == d.folder with
    | some i =>
      let dir := s.dirs.getD i {}
      let res := dir.assignStatusStr d.toState eventTime
      ({ s with dirs := setDirAt s.dirs i res.1 }, {})
    | none =>
      let fresh : SyncthingDir := { id := d.folder }
      ({ s with dirs := s.dirs ++ [(fresh.assignStatusStr d.toState eventTime).1] },
       { requests := ["system/config"] })

/-- Reduction of a C++ `int` cast to `unsigned int`: the value modulo `2^32`. -/
def toUInt32Nat (x : Int) : Nat := (x % (2 ^ 32 : Int)).toNat

/-- The download percentage derivation of `readDownloadProgressEvent` (lines
1241-1243): when both block counters are positive, downloaded blocks are cast
to `unsigned int`, multiplied by 100 in 32-bit arithmetic and divided by the
total cast to `unsigned int`; otherwise the percentage is 0. -/
def downloadPercentage (downloaded total : Int) : Nat :=
  if 0 < downloaded ∧ 0 < total then
    toUInt32Nat downloaded * 100 % 2 ^ 32 / toUInt32Nat total
  else 0

/-- `readDownloadProgressEvent` (lines 1222-1250): every directory's in-flight
list is wiped and rebuilt from the payload, the block aggregates are summed
over the items and the percentage is derived. -/
def readDownloadProgressEvent (s : SyncthingConnection)
    (folderItems : List (String × List (String × DownloadItemJson))) :
    SyncthingConnection × Effects :=
  let dirs := s.dirs.map fun d =>
    let entries := ((folderItems.find? fun kv => kv.1 == d.id).map Prod.snd).getD []
    let items := entries.map fun kv =>
      ({ fileName := kv.1
         blocksAlreadyDownloaded := kv.2.blocksAlreadyDownloaded
         totalNumberOfBlocks := kv.2.totalNumberOfBlocks } : SyncthingItemDownloadProgress)
    let downloaded := items.foldl (fun acc it => acc + it.blocksAlreadyDownloaded) 0
    let total := items.foldl (fun acc it => acc + it.totalNumberOfBlocks) 0
    { d with
      downloadingItems := items
      blocksAlreadyDownloaded := downloaded
      blocksToBeDownloaded := total
      downloadPercentage := downloadPercentage downloaded total }
  ({ s with dirs := dirs }, {})

/-- The `FolderErrors` part of `readDirEvent` (lines 1261-1283), processing one
error entry: a not-yet-recorded error is appended, the directory is forced
OutOfSync, and a notification is raised when the error was also absent from
the previous snapshot. The directory lives at position `i` of `m_dirs`, so the
in-place mutation is modelled by writing back before `emitNotification` runs. -/
def applyFolderError (eventTime : Nat) (i : Nat) (acc : SyncthingConnection × Effects)
    (entry : String × String) : SyncthingConnection × Effects :=
  let dir := acc.1.dirs.getD i {}
  let dirError : SyncthingDirError := { message := entry.1, path := entry.2 }
  if dir.errors.contains dirError then acc
  else
    let dir1 := { dir with errors := dir.errors ++ [dirError] }
    let dir2 := (dir1.assignStatus SyncthingDirStatus.OutOfSync eventTime).1
    let s1 := { acc.1 with dirs := setDirAt acc.1.dirs i dir2 }
    if dir2.previousErrors.contains dirError then (s1, acc.2)
    else
      let res := emitNotification s1 eventTime dirError.message
      (res.1, acc.2 ++ res.2)

/-- `readDirEvent` (lines 1255-1322), dispatching the `Folder*` event types on
a known directory: `FolderErrors` merges new errors, `FolderSummary` updates
the counters (its status derivation is a disabled known gap),
`FolderCompletion` keeps the smallest positive completion percentage below
100, `FolderScanProgress` updates the scan percentage and rate and forces
Scanning. -/
def readDirEvent (s : SyncthingConnection) (eventTime : Nat) (eventType : String)
    (d : EventData) : SyncthingConnection × Effects :=
  if d.folder = "" then (s, {})
  else
    match s.dirs.findIdx? fun dir => dir.id == d.folder with
    | none => (s, {})
    | some i =>
      if eventType = "FolderErrors" then
        if d.folderErrors = [] then (s, {})
        else d.folderErrors.foldl (applyFolderError eventTime i) (s, {})
      else if eventType = "FolderSummary" then
        match d.summary with
        | none => (s, {})
        | some v =>
          let dir := s.dirs.getD i {}
          let dir1 := { dir with
            globalBytes := v.globalBytes, globalDeleted := v.globalDeleted
            globalFiles := v.globalFiles, localBytes := v.localBytes
            localDeleted := v.localDeleted, localFiles := v.localFiles
            neededByted := v.needByted, neededFiles := v.needFiles }
          ({ s with dirs := setDirAt s.dirs i dir1 }, {})
      else if eventType = "FolderCompletion" then
        let dir := s.dirs.getD i {}
        if 0 < d.completion ∧ d.completion < 100
            ∧ (dir.progressPercentage ≤ 0 ∨ d.completion < dir.progressPercentage) then
          ({ s with dirs := setDirAt s.dirs i { dir with progressPercentage := d.completion } }, {})
        else (s, {})
      else if eventType = "FolderScanProgress" then
        if 0 < d.current ∧ 0 < d.total then
          let dir := s.dirs.getD i {}
          let dir1 := { dir with
            progressPercentage := d.current * 100 / d.total
            progressRate := d.rate }
          let dir2 := (dir1.assignStatus SyncthingDirStatus.Scanning eventTime).1
          ({ s with dirs := setDirAt s.dirs i dir2 }, {})
        else (s, {})
      else (s, {})

/-- The status/paused pair proposed by a `Device*` event type in
`readDeviceEvent`'s if-else chain (lines 1339-1358); `none` for unrecognised
types, which are ignored. -/
def deviceEventProposal (eventType : String) (dev : SyncthingDev) :
    Option (SyncthingDevStatus × Bool) :=
  if eventType = "DeviceConnected" then some (SyncthingDevStatus.Idle, dev.paused)
  else if eventType = "DeviceDisconnected" then some (SyncthingDevStatus.Disconnected, dev.paused)
  else if eventType = "DevicePaused" then some (dev.status, true)
  else if eventType = "DeviceRejected" then some (SyncthingDevStatus.Rejected, dev.paused)
  else if eventType = "DeviceResumed" then some (SyncthingDevStatus.Disconnected, false)
  else if eventType = "DeviceDiscovered" then
    some ((if dev.status = SyncthingDevStatus.Unknown then SyncthingDevStatus.Disconnected
           else dev.status), dev.paused)
  else none

/-- The transition of `readDeviceEvent` (lines 1337-1365) on the matched
device: when the proposed pair differs from the current one it is stored,
except that the status of an OwnDevice is never touched. -/
def applyDeviceEvent (eventType : String) (dev : SyncthingDev) : Option SyncthingDev :=
  (deviceEventProposal eventType dev).map fun p =>
    if dev.status ≠ p.1 ∨ dev.paused ≠ p.2 then
      { dev with
        status := if dev.status = SyncthingDevStatus.OwnDevice then dev.status else p.1
        paused := p.2 }
    else dev

/-- `readDeviceEvent` (lines 1327-1368): events dated before the last
connections update are dropped (the guard is reproduced verbatim, including
its use of a conjunction), then the first device with the event's id receives
the transition of `applyDeviceEvent`. -/
def readDeviceEvent (s : SyncthingConnection) (eventTime : Nat) (eventType : String)
    (d : EventData) : SyncthingConnection × Effects :=
  if eventTime = 0 ∧ s.lastConnectionsUpdate = 0 ∧ eventTime < s.lastConnectionsUpdate then
    (s, {})
  else if d.device = "" then (s, {})
  else
    ({ s with
        devs := updateFirstDev s.devs d.device
          fun dev => (applyDeviceEvent eventType dev).getD dev }, {})

/-- `readItemStarted` (lines 1374-1378): a no-op hook. -/
def readItemStarted (s : SyncthingConnection) (_eventTime : Nat) (_d : EventData) :
    SyncthingConnection × Effects :=
  (s, {})

/-- `readItemFinished` (lines 1383-1412): for a known folder, a success (empty
error string) stores the item as the folder's last synced file when the
folder's file time is null or the event time is below it (the comparison as
written in the source), propagating to the connection-wide metadata when the
event time exceeds the connection-wide file time; a failure on an OutOfSync
folder appends the error and raises a notification. -/
def readItemFinished (s : SyncthingConnection) (eventTime : Nat) (d : EventData) :
    SyncthingConnection × Effects :=
  if d.folder = "" then (s, {})
  else
    match s.dirs.findIdx? fun dir => dir.id == d.folder with
    | none => (s, {})
    | some i =>
      let dir := s.dirs.getD i {}
      if d.error = "" then
        if dir.lastFileTime = 0 ∨ eventTime < dir.lastFileTime then
          let dir1 := { dir with
            lastFileTime := eventTime
            lastFileName := d.item
            lastFileDeleted := d.action ≠ "delete" }
          let s1 := { s with dirs := setDirAt s.dirs i dir1 }
          let s2 :=
            if eventTime > s1.lastFileTime then
              { s1 with
                lastFileTime := dir1.lastFileTime
                lastFileName := dir1.lastFileName
                lastFileDeleted := dir1.lastFileDeleted }
            else s1
          (s2, {})
        else (s, {})
      else if dir.status = SyncthingDirStatus.OutOfSync then
        let dir1 := { dir with
          errors := dir.errors ++ [{ message := d.error, path := d.item }]
          status := SyncthingDirStatus.OutOfSync }
        let s1 := { s with dirs := setDirAt s.dirs i dir1 }
        let res := emitNotification s1 eventTime d.error
        (res.1, res.2)
      else (s, {})

/-- Processing of one event inside the loop of `readEvents` (lines 1111-1139):
the last-seen id is updated (`toInt` falling back to the current value), the
timestamp is parsed tolerantly (null on failure) and the event is dispatched
by type, with exact matches tried before the `Folder`/`Device` prefixes as in
the source's if-else chain. -/
def processEvent (s : SyncthingConnection) (e : Event) : SyncthingConnection × Effects :=
  let s0 := { s with lastEventId := e.id.getD s.lastEventId }
  let t := e.time.getD 0
  if e.eventType = "Starting" then readStartingEvent s0 e.data
  else if e.eventType = "StateChanged" then readStatusChangedEvent s0 t e.data
  else if e.eventType = "DownloadProgress" then readDownloadProgressEvent s0 e.data.folderItems
  else if e.eventType.startsWith "Folder" then readDirEvent s0 t e.eventType e.data
  else if e.eventType.startsWith "Device" then readDeviceEvent s0 t e.eventType e.data
  else if e.eventType = "ItemStarted" then readItemStarted s0 t e.data
  else if e.eventType = "ItemFinished" then readItemFinished s0 t e.data
  else if e.eventType = "ConfigSaved" then (s0, { requests := ["system/config"] })
  else (s0, {})

/-- `readEvents` (lines 1095-1177): a successful batch is processed event by
event and, depending on `m_keepPolling`, the poll is re-issued with the status
reset to Idle, or the status falls to Disconnected; a parse failure raises a
Parsing error, forces Disconnected and arms the reconnect timer; a timeout
just falls through to the re-poll logic; a canceled reply continues a pending
reconnect or finalises the Disconnected state; any other failure behaves like
a parse failure with an OverallConnection error. -/
def readEvents (s : SyncthingConnection) (r : ReplyOutcome (List Event)) :
    SyncthingConnection × Effects :=
  match r with
  | ReplyOutcome.noError (some events) =>
    let step := events.foldl
      (fun (acc : SyncthingConnection × Effects) e =>
        let res := processEvent acc.1 e
        (res.1, acc.2 ++ res.2))
      (s, ({} : Effects))
    if step.1.keepPolling then
      (setStatus step.1 SyncthingStatus.Idle, step.2 ++ { requests := ["events"] })
    else
      (setStatus step.1 SyncthingStatus.Disconnected, step.2)
  | ReplyOutcome.noError none =>
    let s1 := setStatus s SyncthingStatus.Disconnected
    ({ s1 with autoReconnectTimerActive := s1.autoReconnectInterval ≠ 0 ∨ s1.autoReconnectTimerActive },
     { errors := [SyncthingErrorCategory.Parsing] })
  | ReplyOutcome.timedOut =>
    if s.keepPolling then
      (setStatus s SyncthingStatus.Idle, { requests := ["events"] })
    else
      (setStatus s SyncthingStatus.Disconnected, {})
  | ReplyOutcome.canceled =>
    if s.reconnecting then continueReconnecting s
    else (setStatus s SyncthingStatus.Disconnected, {})
  | ReplyOutcome.otherError =>
    let s1 := setStatus s SyncthingStatus.Disconnected
    ({ s1 with autoReconnectTimerActive := s1.autoReconnectInterval ≠ 0 ∨ s1.autoReconnectTimerActive },
     { errors := [SyncthingErrorCategory.OverallConnection] })

/-- A sequence of successfully parsed event batches processed by `readEvents`
one after another. -/
def processEventBatches (s : SyncthingConnection) (batches : List (List Event)) :
    SyncthingConnection :=
  batches.foldl (fun st b => (readEvents st (ReplyOutcome.noError (some b))).1) s

/-- The event ids of all events of a sequence of batches, in processing
order (events without an id contribute nothing, like `toInt`'s fallback). -/
def batchIds (batches : List (List Event)) : List Nat :=
  match batches with
  | [] => []
  | b :: rest => b.filterMap Event.id ++ batchIds rest

/-! ### Helper lemmas -/

lemma setStatus_status_eq (s : SyncthingConnection) (requested : SyncthingStatus)
    (hbd : s.status ≠ SyncthingStatus.BeingDestroyed)
    (h1 : requested ≠ SyncthingStatus.Disconnected)
    (h2 : requested ≠ SyncthingStatus.Reconnecting) :
    (setStatus s requested).status = aggregateStatus s.dirs s.devs := by
  unfold setStatus
  rw [if_neg hbd, if_neg (by simp [h1, h2])]
  dsimp only
  split
  · simp
  · next h =>
    simp only [ne_eq, not_not] at h
    simpa using h

lemma aggregateStatus_spec (dirs : List SyncthingDir) (devs : List SyncthingDev) :
    (aggregateStatus dirs devs = SyncthingStatus.Synchronizing ↔
      ∃ d ∈ dirs, d.status = SyncthingDirStatus.Synchronizing)
    ∧ (aggregateStatus dirs devs = SyncthingStatus.Scanning ↔
      ((¬ ∃ d ∈ dirs, d.status = SyncthingDirStatus.Synchronizing)
        ∧ ∃ d ∈ dirs, d.status = SyncthingDirStatus.Scanning))
    ∧ (aggregateStatus dirs devs = SyncthingStatus.Paused ↔
      ((¬ ∃ d ∈ dirs, d.status = SyncthingDirStatus.Synchronizing)
        ∧ (¬ ∃ d ∈ dirs, d.status = SyncthingDirStatus.Scanning)
        ∧ ∃ dev ∈ devs, dev.paused = true))
    ∧ (aggregateStatus dirs devs = SyncthingStatus.Idle ↔
      ((¬ ∃ d ∈ dirs, d.status = SyncthingDirStatus.Synchronizing)
        ∧ (¬ ∃ d ∈ dirs, d.status = SyncthingDirStatus.Scanning)
        ∧ ¬ ∃ dev ∈ devs, dev.paused = true)) := by
  by_cases h1 : ∃ d ∈ dirs, d.status = SyncthingDirStatus.Synchronizing
  · refine ⟨?_, ?_, ?_, ?_⟩ <;>
      simp [aggregateStatus, List.any_eq_true, h1]
  · by_cases h2 : ∃ d ∈ dirs, d.status = SyncthingDirStatus.Scanning
    · refine ⟨?_, ?_, ?_, ?_⟩ <;>
        simp [aggregateStatus, List.any_eq_true, h1, h2]
    · by_cases h3 : ∃ dev ∈ devs, dev.paused = true
      · refine ⟨?_, ?_, ?_, ?_⟩ <;>
          simp [aggregateStatus, List.any_eq_true, h1, h2, h3]
      · refine ⟨?_, ?_, ?_, ?_⟩ <;>
          simp [aggregateStatus, List.any_eq_true, h1, h2, h3]

/-! ### Claim C1 -/

/-- Claim C1: whenever `setStatus` recomputes the aggregate status (requested
status not Disconnected/Reconnecting/BeingDestroyed, object not being
destroyed), the resulting overall status is Synchronizing iff some directory
is Synchronizing; Scanning iff none is Synchronizing and some directory is
Scanning; Paused iff none is Scanning or Synchronizing and some device is
paused; and Idle otherwise. -/
theorem setStatus_aggregate (s : SyncthingConnection) (requested : SyncthingStatus)
    (hbd : s.status ≠ SyncthingStatus.BeingDestroyed)
    (h1 : requested ≠ SyncthingStatus.Disconnected)
    (h2 : requested ≠ SyncthingStatus.Reconnecting)
    (h3 : requested ≠ SyncthingStatus.BeingDestroyed) :
    ((setStatus s requested).status = SyncthingStatus.Synchronizing ↔
      ∃ d ∈ s.dirs, d.status = SyncthingDirStatus.Synchronizing)
    ∧ ((setStatus s requested).status = SyncthingStatus.Scanning ↔
      ((¬ ∃ d ∈ s.dirs, d.status = SyncthingDirStatus.Synchronizing)
        ∧ ∃ d ∈ s.dirs, d.status = SyncthingDirStatus.Scanning))
    ∧ ((setStatus s requested).status = SyncthingStatus.Paused ↔
      ((¬ ∃ d ∈ s.dirs, d.status = SyncthingDirStatus.Synchronizing)
        ∧ (¬ ∃ d ∈ s.dirs, d.status = SyncthingDirStatus.Scanning)
        ∧ ∃ dev ∈ s.devs, dev.paused = true))
    ∧ ((setStatus s requested).status = SyncthingStatus.Idle ↔
      ((¬ ∃ d ∈ s.dirs, d.status = SyncthingDirStatus.Synchronizing)
        ∧ (¬ ∃ d ∈ s.dirs, d.status = SyncthingDirStatus.Scanning)
        ∧ ¬ ∃ dev ∈ s.devs, dev.paused = true)) := by
  rw [setStatus_status_eq s requested hbd h1 h2]
  exact aggregateStatus_spec s.dirs s.devs

/-- Witness for claim C1: a concrete state with one synchronizing directory
and one paused device resolves to Synchronizing. -/
theorem setStatus_aggregate_witness :
    ((setStatus
        { dirs := [{ id := "a", status := SyncthingDirStatus.Synchronizing }]
          devs := [{ id := "d", paused := true }] }
        SyncthingStatus.Idle).status = SyncthingStatus.Synchronizing ↔
      ∃ d ∈ [({ id := "a", status := SyncthingDirStatus.Synchronizing } : SyncthingDir)],
        d.status = SyncthingDirStatus.Synchronizing)
    ∧ ((setStatus
        { dirs := [{ id := "a", status := SyncthingDirStatus.Synchronizing }]
          devs := [{ id := "d", paused := true }] }
        SyncthingStatus.Idle).status = SyncthingStatus.Scanning ↔
      ((¬ ∃ d ∈ [({ id := "a", status := SyncthingDirStatus.Synchronizing } : SyncthingDir)],
          d.status = SyncthingDirStatus.Synchronizing)
        ∧ ∃ d ∈ [({ id := "a", status := SyncthingDirStatus.Synchronizing } : SyncthingDir)],
          d.status = SyncthingDirStatus.Scanning))
    ∧ ((setStatus
        { dirs := [{ id := "a", status := SyncthingDirStatus.Synchronizing }]
          devs := [{ id := "d", paused := true }] }
        SyncthingStatus.Idle).status = SyncthingStatus.Paused ↔
      ((¬ ∃ d ∈ [({ id := "a", status := SyncthingDirStatus.Synchronizing } : SyncthingDir)],
          d.status = SyncthingDirStatus.Synchronizing)
        ∧ (¬ ∃ d ∈ [({ id := "a", status := SyncthingDirStatus.Synchronizing } : SyncthingDir)],
          d.status = SyncthingDirStatus.Scanning)
        ∧ ∃ dev ∈ [({ id := "d", paused := true } : SyncthingDev)], dev.paused = true))
    ∧ ((setStatus
        { dirs := [{ id := "a", status := SyncthingDirStatus.Synchronizing }]
          devs := [{ id := "d", paused := true }] }
        SyncthingStatus.Idle).status = SyncthingStatus.Idle ↔
      ((¬ ∃ d ∈ [({ id := "a", status := SyncthingDirStatus.Synchronizing } : SyncthingDir)],
          d.status = SyncthingDirStatus.Synchronizing)
        ∧ (¬ ∃ d ∈ [({ id := "a", status := SyncthingDirStatus.Synchronizing } : SyncthingDir)],
          d.status = SyncthingDirStatus.Scanning)
        ∧ ¬ ∃ dev ∈ [({ id := "d", paused := true } : SyncthingDev)], dev.paused = true)) :=
  setStatus_aggregate
    { dirs := [{ id := "a", status := SyncthingDirStatus.Synchronizing }]
      devs := [{ id := "d", paused := true }] }
    SyncthingStatus.Idle (by decide) (by decide) (by decide) (by decide)

lemma foldl_append_toList_eq_filterMap {α β : Type} (f : α → Option β)
    (payload : List α) (acc : List β) :
    payload.foldl (fun acc j => acc ++ (f j).toList) acc = acc ++ payload.filterMap f := by
  induction payload generalizing acc with
  | nil => simp
  | cons j rest ih =>
    simp only [List.foldl_cons, List.filterMap_cons]
    cases h : f j <;> simp [h, ih]

lemma findIdx_lt_length {α : Type} {p : α → Bool} {l : List α} {i : Nat}
    (h : l.findIdx? p = some i) : i < l.length :=
  (List.findIdx?_eq_some_iff_findIdx_eq.mp h).1

lemma getD_set_eq {α : Type} (l : List α) (i : Nat) (a dflt : α) (h : i < l.length) :
    (l.set i a).getD i dflt = a := by
  rw [List.getD_eq_getElem?_getD, List.getElem?_set_eq_of_lt a h]
  rfl

/-! ### Claim C3 -/

/-- Counterexample for claim C3: a configuration refresh does NOT preserve a
recycled device's status. A device known with status Idle that reappears in
the payload while not being the own device comes out with status Unknown. -/
theorem readDevs_status_not_preserved :
    (readDevs [{ id := "d", status := SyncthingDevStatus.Idle }] "m"
        [{ deviceID := "d" }]).map SyncthingDev.status = [SyncthingDevStatus.Unknown]
    ∧ SyncthingDevStatus.Unknown ≠ SyncthingDevStatus.Idle := by
  constructor
  · decide
  · decide

/-- Claim C3 as amended: `readDirs`/`readDevs` build the replacement
collections entry by entry; a directory entry whose id matches an existing
record keeps that record's status, error list and counters while label, path,
device-sharing set and flags come from the payload; a device entry keeps the
existing record's paused flag and traffic counters while its configuration
fields come from the payload and its status is recomputed (OwnDevice exactly
for the own device id, Unknown otherwise); ids not present before yield
freshly created records. -/
theorem readConfig_reconciliation (oldDirs : List SyncthingDir)
    (oldDevs : List SyncthingDev) (myId : String)
    (dirPayload : List DirConfigJson) (devPayload : List DevConfigJson) :
    readDirs oldDirs dirPayload = dirPayload.filterMap (reconcileDir oldDirs)
    ∧ readDevs oldDevs myId devPayload = devPayload.filterMap (reconcileDev oldDevs myId)
    ∧ (∀ j : DirConfigJson, j.id ≠ "" →
        (∀ d, (oldDirs.find? fun x => x.id == j.id) = some d →
          ∃ r, reconcileDir oldDirs j = some r
            ∧ r.status = d.status ∧ r.errors = d.errors
            ∧ r.globalBytes = d.globalBytes ∧ r.globalDeleted = d.globalDeleted
            ∧ r.globalFiles = d.globalFiles ∧ r.localBytes = d.localBytes
            ∧ r.localDeleted = d.localDeleted ∧ r.localFiles = d.localFiles
            ∧ r.neededByted = d.neededByted ∧ r.neededFiles = d.neededFiles
            ∧ r.label = j.label ∧ r.path = j.path
            ∧ r.devices = j.devices.filter (fun devId => devId ≠ "")
            ∧ r.readOnly = j.readOnly ∧ r.rescanInterval = j.rescanIntervalS
            ∧ r.ignorePermissions = j.ignorePerms ∧ r.autoNormalize = j.autoNormalize
            ∧ r.minDiskFreePercentage = j.minDiskFreePct)
        ∧ ((oldDirs.find? fun x => x.id == j.id) = none →
          ∃ r, reconcileDir oldDirs j = some r
            ∧ r.id = j.id ∧ r.status = SyncthingDirStatus.Unknown ∧ r.errors = []))
    ∧ (∀ j : DevConfigJson, j.deviceID ≠ "" →
        (∀ d, (oldDevs.find? fun x => x.id == j.deviceID) = some d →
          ∃ r, reconcileDev oldDevs myId j = some r
            ∧ r.paused = d.paused
            ∧ r.totalIncomingTraffic = d.totalIncomingTraffic
            ∧ r.totalOutgoingTraffic = d.totalOutgoingTraffic
            ∧ r.name = j.name ∧ r.addresses = j.addresses
            ∧ r.compression = j.compression ∧ r.certName = j.certName
            ∧ r.introducer = j.introducer
            ∧ r.status = (if j.deviceID = myId then SyncthingDevStatus.OwnDevice
                else SyncthingDevStatus.Unknown))
        ∧ ((oldDevs.find? fun x => x.id == j.deviceID) = none →
          ∃ r, reconcileDev oldDevs myId j = some r
            ∧ r.id = j.deviceID ∧ r.paused = false
            ∧ r.status = (if j.deviceID = myId then SyncthingDevStatus.OwnDevice
                else SyncthingDevStatus.Unknown))) := by
  refine ⟨?_, ?_, ?_, ?_⟩
  · exact (foldl_append_toList_eq_filterMap (reconcileDir oldDirs) dirPayload []).trans
      (by simp)
  · exact (foldl_append_toList_eq_filterMap (reconcileDev oldDevs myId) devPayload []).trans
      (by simp)
  · intro j hid
    constructor
    · intro d hfind
      refine ⟨{ d with
          label := j.label, path := j.path
          devices := j.devices.filter (fun devId => devId ≠ "")
          readOnly := j.readOnly, rescanInterval := j.rescanIntervalS
          ignorePermissions := j.ignorePerms, autoNormalize := j.autoNormalize
          minDiskFreePercentage := j.minDiskFreePct },
        by simp [reconcileDir, hid, hfind], ?_⟩
      simp
    · intro hfind
      refine ⟨{ ({ id := j.id } : SyncthingDir) with
          label := j.label, path := j.path
          devices := j.devices.filter (fun devId => devId ≠ "")
          readOnly := j.readOnly, rescanInterval := j.rescanIntervalS
          ignorePermissions := j.ignorePerms, autoNormalize := j.autoNormalize
          minDiskFreePercentage := j.minDiskFreePct },
        by simp [reconcileDir, hid, hfind], ?_⟩
      simp
  · intro j hid
    constructor
    · intro d hfind
      refine ⟨{ d with
          name := j.name, addresses := j.addresses
          compression := j.compression, certName := j.certName
          introducer := j.introducer
          status := if j.deviceID = myId then SyncthingDevStatus.OwnDevice
            else SyncthingDevStatus.Unknown },
        by simp [reconcileDev, hid, hfind], ?_⟩
      simp
    · intro hfind
      refine ⟨{ ({ id := j.deviceID } : SyncthingDev) with
          name := j.name, addresses := j.addresses
          compression := j.compression, certName := j.certName
          introducer := j.introducer
          status := if j.deviceID = myId then SyncthingDevStatus.OwnDevice
            else SyncthingDevStatus.Unknown },
        by simp [reconcileDev, hid, hfind], ?_⟩
      simp

/-! ### Claim C2 -/

/-- Claim C2, evaluation at the failing input: a successful `ItemFinished`
event strictly newer (time 200) than the folder's known last file time (100)
leaves the whole connection state unchanged, while an event strictly older
(time 50) replaces the last-synced-file metadata — the opposite of the
documented "newer than" behaviour, caused by the inverted comparison
`eventTime < dirInfo->lastFileTime` in line 1392. -/
theorem readItemFinished_newer_time_ignored :
    ((readItemFinished
        { dirs := [{ id := "a", lastFileTime := 100, lastFileName := "old" }] }
        200 { folder := "a", item := "new", action := "update" }).1 =
      { dirs := [{ id := "a", lastFileTime := 100, lastFileName := "old" }] })
    ∧ ((readItemFinished
        { dirs := [{ id := "a", lastFileTime := 100, lastFileName := "old" }] }
        50 { folder := "a", item := "stale", action := "update" }).1.dirs.map
          SyncthingDir.lastFileName = ["stale"]) := by
  constructor
  · decide
  · decide

/-! ### Claim C10 -/

/-- Claim C10: whenever a successful `ItemFinished` event updates a folder's
last-synced-file metadata, the stored deleted flag is true exactly when the
event's action is not `delete` (i.e. it is the negation of whether the item
was a deletion), and the connection-wide flag receives the same value when
the update propagates. -/
theorem readItemFinished_deleted_flag (s : SyncthingConnection) (t : Nat)
    (d : EventData) (i : Nat)
    (hfold : d.folder ≠ "")
    (hfind : (s.dirs.findIdx? fun dir => dir.id == d.folder) = some i)
    (herr : d.error = "")
    (hupd : (s.dirs.getD i {}).lastFileTime = 0 ∨ t < (s.dirs.getD i {}).lastFileTime) :
    ((readItemFinished s t d).1.dirs.getD i {}).lastFileDeleted
        = decide (d.action ≠ "delete")
    ∧ (t > s.lastFileTime →
        (readItemFinished s t d).1.lastFileDeleted = decide (d.action ≠ "delete")) := by
  have hlen : i < s.dirs.length := findIdx_lt_length hfind
  unfold readItemFinished
  rw [if_neg (by simpa using hfold), hfind]
  dsimp only
  rw [if_pos herr, if_pos hupd]
  constructor
  · by_cases hgt : t > s.lastFileTime
    · rw [if_pos hgt]
      dsimp only
      simp only [setDirAt]
      rw [getD_set_eq _ _ _ _ hlen]
    · rw [if_neg hgt]
      dsimp only
      simp only [setDirAt]
      rw [getD_set_eq _ _ _ _ hlen]
  · intro hgt
    rw [if_pos hgt]

lemma setStatus_fields (s : SyncthingConnection) (r : SyncthingStatus) :
    (setStatus s r).lastEventId = s.lastEventId
    ∧ (setStatus s r).hasConfig = s.hasConfig
    ∧ (setStatus s r).hasStatus = s.hasStatus
    ∧ (setStatus s r).apiKey = s.apiKey
    ∧ (setStatus s r).syncthingUrl = s.syncthingUrl := by
  unfold setStatus
  split
  · exact ⟨rfl, rfl, rfl, rfl, rfl⟩
  · split
    · dsimp only
      split
      · exact ⟨rfl, rfl, rfl, rfl, rfl⟩
      · exact ⟨rfl, rfl, rfl, rfl, rfl⟩
    · dsimp only
      split
      · exact ⟨rfl, rfl, rfl, rfl, rfl⟩
      · exact ⟨rfl, rfl, rfl, rfl, rfl⟩

lemma emitNotification_lastEventId (s : SyncthingConnection) (t : Nat) (m : String) :
    (emitNotification s t m).1.lastEventId = s.lastEventId := by
  unfold emitNotification
  dsimp only
  rw [(setStatus_fields _ _).1]

lemma readStartingEvent_lastEventId (s : SyncthingConnection) (d : EventData) :
    (readStartingEvent s d).1.lastEventId = s.lastEventId := by
  unfold readStartingEvent
  dsimp only
  split
  · split
    · rfl
    · rfl
  · split
    · rfl
    · rfl

lemma readStatusChangedEvent_lastEventId (s : SyncthingConnection) (t : Nat) (d : EventData) :
    (readStatusChangedEvent s t d).1.lastEventId = s.lastEventId := by
  unfold readStatusChangedEvent
  split
  · rfl
  · split
    · rfl
    · rfl

lemma readDownloadProgressEvent_lastEventId (s : SyncthingConnection)
    (folderItems : List (String × List (String × DownloadItemJson))) :
    (readDownloadProgressEvent s folderItems).1.lastEventId = s.lastEventId :=
  rfl

lemma applyFolderError_lastEventId (t i : Nat) (acc : SyncthingConnection × Effects)
    (entry : String × String) :
    (applyFolderError t i acc entry).1.lastEventId = acc.1.lastEventId := by
  simp only [applyFolderError]
  split
  · rfl
  · split
    · rfl
    · rw [emitNotification_lastEventId]

lemma foldl_applyFolderError_lastEventId (entries : List (String × String)) (t i : Nat)
    (acc : SyncthingConnection × Effects) :
    (entries.foldl (applyFolderError t i) acc).1.lastEventId = acc.1.lastEventId := by
  induction entries generalizing acc with
  | nil => rfl
  | cons e rest ih => rw [List.foldl_cons, ih, applyFolderError_lastEventId]

lemma readDirEvent_lastEventId (s : SyncthingConnection) (t : Nat) (ty : String)
    (d : EventData) :
    (readDirEvent s t ty d).1.lastEventId = s.lastEventId := by
  unfold readDirEvent
  dsimp only
  split
  · rfl
  · split
    · rfl
    · split
      · split
        · rfl
        · exact foldl_applyFolderError_lastEventId _ _ _ _
      · split
        · split
          · rfl
          · rfl
        · split
          · split
            · rfl
            · rfl
          · split
            · split
              · rfl
              · rfl
            · rfl

lemma readDeviceEvent_lastEventId (s : SyncthingConnection) (t : Nat) (ty : String)
    (d : EventData) :
    (readDeviceEvent s t ty d).1.lastEventId = s.lastEventId := by
  unfold readDeviceEvent
  split
  · rfl
  · split
    · rfl
    · rfl

lemma readItemFinished_lastEventId (s : SyncthingConnection) (t : Nat) (d : EventData) :
    (readItemFinished s t d).1.lastEventId = s.lastEventId := by
  simp only [readItemFinished]
  split
  · rfl
  · split
    · rfl
    · split
      · split
        · split
          · rfl
          · rfl
        · rfl
      · split
        · rw [emitNotification_lastEventId]
        · rfl

lemma processEvent_lastEventId (s : SyncthingConnection) (e : Event) :
    (processEvent s e).1.lastEventId = e.id.getD s.lastEventId := by
  unfold processEvent
  dsimp only
  repeat' split
  all_goals
    first
      | exact readStartingEvent_lastEventId _ _
      | exact readStatusChangedEvent_lastEventId _ _ _
      | exact readDownloadProgressEvent_lastEventId _ _
      | exact readDirEvent_lastEventId _ _ _ _
      | exact readDeviceEvent_lastEventId _ _ _ _
      | exact readItemFinished_lastEventId _ _ _
      | rfl

lemma foldl_processEvent_lastEventId (events : List Event)
    (acc : SyncthingConnection × Effects) :
    (events.foldl
      (fun (acc : SyncthingConnection × Effects) e =>
        let res := processEvent acc.1 e
        (res.1, acc.2 ++ res.2))
      acc).1.lastEventId
      = events.foldl (fun a e => e.id.getD a) acc.1.lastEventId := by
  induction events generalizing acc with
  | nil => rfl
  | cons e rest ih =>
    rw [List.foldl_cons, List.foldl_cons, ih]
    dsimp only
    rw [processEvent_lastEventId]

lemma readEvents_batch_lastEventId (s : SyncthingConnection) (events : List Event) :
    (readEvents s (ReplyOutcome.noError (some events))).1.lastEventId
      = events.foldl (fun a e => e.id.getD a) s.lastEventId := by
  simp only [readEvents]
  split
  · rw [(setStatus_fields _ _).1, foldl_processEvent_lastEventId]
  · rw [(setStatus_fields _ _).1, foldl_processEvent_lastEventId]

lemma foldl_getD_eq_foldl_ids (events : List Event) (a : Nat) :
    events.foldl (fun a e => e.id.getD a) a
      = (events.filterMap Event.id).foldl (fun _ i => i) a := by
  induction events generalizing a with
  | nil => rfl
  | cons e rest ih =>
    cases h : e.id with
    | none => simp [List.foldl_cons, List.filterMap_cons, h, ih]
    | some i => simp [List.foldl_cons, List.filterMap_cons, h, ih]

lemma processEventBatches_lastEventId (s : SyncthingConnection)
    (batches : List (List Event)) :
    (processEventBatches s batches).lastEventId
      = (batchIds batches).foldl (fun _ i => i) s.lastEventId := by
  induction batches generalizing s with
  | nil => rfl
  | cons b rest ih =>
    show (processEventBatches (readEvents s (ReplyOutcome.noError (some b))).1 rest).lastEventId
      = (batchIds (b :: rest)).foldl (fun _ i => i) s.lastEventId
    rw [ih]
    show _ = (b.filterMap Event.id ++ batchIds rest).foldl (fun _ i => i) s.lastEventId
    rw [List.foldl_append, readEvents_batch_lastEventId, foldl_getD_eq_foldl_ids]

lemma foldl_last_eq_foldl_max (ids : List Nat) (a0 : Nat)
    (hsorted : List.Sorted (· ≤ ·) ids) (hlow : ∀ i ∈ ids, a0 ≤ i) :
    ids.foldl (fun _ i => i) a0 = ids.foldl Nat.max a0 := by
  induction ids generalizing a0 with
  | nil => rfl
  | cons i rest ih =>
    rw [List.foldl_cons, List.foldl_cons]
    have h1 : Nat.max a0 i = i := Nat.max_eq_right (hlow i (List.mem_cons_self _ _))
    rw [h1]
    exact ih i (List.sorted_cons.mp hsorted).2
      fun j hj => (List.sorted_cons.mp hsorted).1 j hj

lemma le_foldl_max (ids : List Nat) (a0 : Nat) : a0 ≤ ids.foldl Nat.max a0 := by
  induction ids generalizing a0 with
  | nil => exact le_refl _
  | cons i rest ih => exact le_trans (Nat.le_max_left a0 i) (ih _)

/-! ### Claim C4 -/

/-- Claim C4: processing successfully parsed event batches whose event ids
arrive in increasing order (each at least the stored last-seen id) leaves the
stored last-seen id equal to the running maximum of all ids seen, and the id
never decreases below its initial value. -/
theorem readEvents_lastSeen_max (s : SyncthingConnection) (batches : List (List Event))
    (hsorted : List.Sorted (· ≤ ·) (batchIds batches))
    (hlow : ∀ i ∈ batchIds batches, s.lastEventId ≤ i) :
    (processEventBatches s batches).lastEventId
      = (batchIds batches).foldl Nat.max s.lastEventId
    ∧ s.lastEventId ≤ (processEventBatches s batches).lastEventId := by
  have h := processEventBatches_lastEventId s batches
  rw [h, foldl_last_eq_foldl_max _ _ hsorted hlow]
  exact ⟨rfl, le_foldl_max _ _⟩

/-- Witness for claim C4: two batches with ids 1, 3 and 5 leave the last-seen
id at the maximum 5. -/
theorem readEvents_lastSeen_max_witness :
    (processEventBatches {}
        [[{ id := some 1 }, { id := some 3 }], [{ id := some 5 }]]).lastEventId
      = (batchIds [[{ id := some 1 }, { id := some 3 }], [{ id := some 5 }]]).foldl
          Nat.max ({} : SyncthingConnection).lastEventId
    ∧ ({} : SyncthingConnection).lastEventId
      ≤ (processEventBatches {}
          [[{ id := some 1 }, { id := some 3 }], [{ id := some 5 }]]).lastEventId :=
  readEvents_lastSeen_max {} [[{ id := some 1 }, { id := some 3 }], [{ id := some 5 }]]
    (by decide) (by decide)

/-! ### Claim C5 -/

/-- Counterexample for claim C5: a canceled events request is not always
silent. With the reconnecting flag set (a reconnect is pending) and an empty
API key — reachable by applying settings with a cleared key while connected —
the canceled completion continues the reconnect and emits an
insufficient-configuration error of category OverallConnection. -/
theorem canceledEvents_emits_error :
    (readEvents
        { status := SyncthingStatus.Idle, reconnecting := true, apiKey := "",
          syncthingUrl := "https://localhost:8384" }
        ReplyOutcome.canceled).2.errors
      = [SyncthingErrorCategory.OverallConnection] := by
  decide

/-- Claim C5 as amended: a canceled completion of the config, status,
connections, directory-statistics, device-statistics or errors request emits
no error and leaves both readiness flags unchanged; a canceled events request
does so too while no reconnect is pending, but with the reconnecting flag set
it restarts the connection, which re-clears both readiness flags and emits an
insufficient-configuration error exactly when the URL or API key is empty. -/
theorem canceledRequests_silent (s : SyncthingConnection) (now : Nat) :
    ((readConfig s ReplyOutcome.canceled).2.errors = []
      ∧ (readConfig s ReplyOutcome.canceled).1.hasConfig = s.hasConfig
      ∧ (readConfig s ReplyOutcome.canceled).1.hasStatus = s.hasStatus)
    ∧ ((readStatus s ReplyOutcome.canceled).2.errors = []
      ∧ (readStatus s ReplyOutcome.canceled).1.hasConfig = s.hasConfig
      ∧ (readStatus s ReplyOutcome.canceled).1.hasStatus = s.hasStatus)
    ∧ ((readConnections s now ReplyOutcome.canceled).2.errors = []
      ∧ (readConnections s now ReplyOutcome.canceled).1.hasConfig = s.hasConfig
      ∧ (readConnections s now ReplyOutcome.canceled).1.hasStatus = s.hasStatus)
    ∧ ((readDirStatistics s ReplyOutcome.canceled).2.errors = []
      ∧ (readDirStatistics s ReplyOutcome.canceled).1.hasConfig = s.hasConfig
      ∧ (readDirStatistics s ReplyOutcome.canceled).1.hasStatus = s.hasStatus)
    ∧ ((readDeviceStatistics s ReplyOutcome.canceled).2.errors = []
      ∧ (readDeviceStatistics s ReplyOutcome.canceled).1.hasConfig = s.hasConfig
      ∧ (readDeviceStatistics s ReplyOutcome.canceled).1.hasStatus = s.hasStatus)
    ∧ ((readErrors s now ReplyOutcome.canceled).2.errors = []
      ∧ (readErrors s now ReplyOutcome.canceled).1.hasConfig = s.hasConfig
      ∧ (readErrors s now ReplyOutcome.canceled).1.hasStatus = s.hasStatus)
    ∧ (s.reconnecting = false →
      (readEvents s ReplyOutcome.canceled).2.errors = []
      ∧ (readEvents s ReplyOutcome.canceled).1.hasConfig = s.hasConfig
      ∧ (readEvents s ReplyOutcome.canceled).1.hasStatus = s.hasStatus)
    ∧ (s.reconnecting = true →
      (readEvents s ReplyOutcome.canceled).1.hasConfig = false
      ∧ (readEvents s ReplyOutcome.canceled).1.hasStatus = false
      ∧ ((s.apiKey = "" ∨ s.syncthingUrl = "") →
        (readEvents s ReplyOutcome.canceled).2.errors
          = [SyncthingErrorCategory.OverallConnection])
      ∧ (¬ (s.apiKey = "" ∨ s.syncthingUrl = "") →
        (readEvents s ReplyOutcome.canceled).2.errors = [])) := by
  refine ⟨⟨rfl, rfl, rfl⟩, ⟨rfl, rfl, rfl⟩, ⟨rfl, rfl, rfl⟩, ⟨rfl, rfl, rfl⟩,
    ⟨rfl, rfl, rfl⟩, ?_, ?_, ?_⟩
  · simp only [readErrors]
    split
    · simp
    · simp
  · intro hrec
    simp only [readEvents]
    rw [if_neg (by simp [hrec])]
    exact ⟨rfl, (setStatus_fields _ _).2.1, (setStatus_fields _ _).2.2.1⟩
  · intro hrec
    simp only [readEvents]
    rw [if_pos hrec]
    simp only [continueReconnecting]
    have hak : (setStatus s SyncthingStatus.Reconnecting).apiKey = s.apiKey :=
      (setStatus_fields s SyncthingStatus.Reconnecting).2.2.2.1
    have hurl : (setStatus s SyncthingStatus.Reconnecting).syncthingUrl = s.syncthingUrl :=
      (setStatus_fields s SyncthingStatus.Reconnecting).2.2.2.2
    rw [hak, hurl]
    split
    · next h =>
      exact ⟨rfl, rfl, fun _ => rfl, fun hcfg => absurd h hcfg⟩
    · next h =>
      exact ⟨rfl, rfl, fun hcfg => absurd hcfg h, fun _ => rfl⟩

/-- Witness for claim C5 (amended): on a default (disconnected, not
reconnecting) state the canceled completions of all seven requests are
silent. -/
theorem canceledRequests_silent_witness :
    ((readConfig {} ReplyOutcome.canceled).2.errors = []
      ∧ (readConfig {} ReplyOutcome.canceled).1.hasConfig
        = ({} : SyncthingConnection).hasConfig
      ∧ (readConfig {} ReplyOutcome.canceled).1.hasStatus
        = ({} : SyncthingConnection).hasStatus)
    ∧ ((readStatus {} ReplyOutcome.canceled).2.errors = []
      ∧ (readStatus {} ReplyOutcome.canceled).1.hasConfig
        = ({} : SyncthingConnection).hasConfig
      ∧ (readStatus {} ReplyOutcome.canceled).1.hasStatus
        = ({} : SyncthingConnection).hasStatus)
    ∧ ((readConnections {} 7 ReplyOutcome.canceled).2.errors = []
      ∧ (readConnections {} 7 ReplyOutcome.canceled).1.hasConfig
        = ({} : SyncthingConnection).hasConfig
      ∧ (readConnections {} 7 ReplyOutcome.canceled).1.hasStatus
        = ({} : SyncthingConnection).hasStatus)
    ∧ ((readDirStatistics {} ReplyOutcome.canceled).2.errors = []
      ∧ (readDirStatistics {} ReplyOutcome.canceled).1.hasConfig
        = ({} : SyncthingConnection).hasConfig
      ∧ (readDirStatistics {} ReplyOutcome.canceled).1.hasStatus
        = ({} : SyncthingConnection).hasStatus)
    ∧ ((readDeviceStatistics {} ReplyOutcome.canceled).2.errors = []
      ∧ (readDeviceStatistics {} ReplyOutcome.canceled).1.hasConfig
        = ({} : SyncthingConnection).hasConfig
      ∧ (readDeviceStatistics {} ReplyOutcome.canceled).1.hasStatus
        = ({} : SyncthingConnection).hasStatus)
    ∧ ((readErrors {} 7 ReplyOutcome.canceled).2.errors = []
      ∧ (readErrors {} 7 ReplyOutcome.canceled).1.hasConfig
        = ({} : SyncthingConnection).hasConfig
      ∧ (readErrors {} 7 ReplyOutcome.canceled).1.hasStatus
        = ({} : SyncthingConnection).hasStatus)
    ∧ (({} : SyncthingConnection).reconnecting = false →
      (readEvents {} ReplyOutcome.canceled).2.errors = []
      ∧ (readEvents {} ReplyOutcome.canceled).1.hasConfig
        = ({} : SyncthingConnection).hasConfig
      ∧ (readEvents {} ReplyOutcome.canceled).1.hasStatus
        = ({} : SyncthingConnection).hasStatus)
    ∧ (({} : SyncthingConnection).reconnecting = true →
      (readEvents {} ReplyOutcome.canceled).1.hasConfig = false
      ∧ (readEvents {} ReplyOutcome.canceled).1.hasStatus = false
      ∧ ((({} : SyncthingConnection).apiKey = ""
          ∨ ({} : SyncthingConnection).syncthingUrl = "") →
        (readEvents {} ReplyOutcome.canceled).2.errors
          = [SyncthingErrorCategory.OverallConnection])
      ∧ (¬ (({} : SyncthingConnection).apiKey = ""
          ∨ ({} : SyncthingConnection).syncthingUrl = "") →
        (readEvents {} ReplyOutcome.canceled).2.errors = [])) :=
  canceledRequests_silent {} 7

/-! ### Claim C6 -/

/-- Claim C6: `connect()` while not connected (status Disconnected, polling
off) with an empty API key or base URL emits exactly one OverallConnection
error, stays Disconnected, issues no HTTP requests and leaves polling off. -/
theorem connect_insufficient_config (s : SyncthingConnection)
    (hst : s.status = SyncthingStatus.Disconnected)
    (hkp : s.keepPolling = false)
    (hcfg : s.apiKey = "" ∨ s.syncthingUrl = "") :
    (connect s).2.errors = [SyncthingErrorCategory.OverallConnection]
    ∧ (connect s).2.requests = []
    ∧ (connect s).1.status = SyncthingStatus.Disconnected
    ∧ (connect s).1.keepPolling = false := by
  have h0 : ¬ (isConnected
      { s with autoReconnectTimerActive := false, autoReconnectTries := 0 } = true) := by
    simp [isConnected, hst]
  unfold connect
  rw [if_neg h0, if_pos hcfg]
  exact ⟨rfl, rfl, hst, hkp⟩

/-- Witness for claim C6: a freshly constructed connection (empty URL and API
key) behaves as claimed. -/
theorem connect_insufficient_config_witness :
    (connect {}).2.errors = [SyncthingErrorCategory.OverallConnection]
    ∧ (connect {}).2.requests = []
    ∧ (connect {}).1.status = SyncthingStatus.Disconnected
    ∧ (connect {}).1.keepPolling = false :=
  connect_insufficient_config {} (by decide) (by decide) (Or.inl (by decide))

/-! ### Claim C7 -/

lemma applyDeviceEvent_ownDevice (eventType : String) (dev : SyncthingDev)
    (h : dev.status = SyncthingDevStatus.OwnDevice) :
    ((applyDeviceEvent eventType dev).getD dev).status = SyncthingDevStatus.OwnDevice := by
  unfold applyDeviceEvent
  cases hprop : deviceEventProposal eventType dev with
  | none => simpa using h
  | some p =>
    simp only [Option.map_some', Option.getD_some]
    split
    · simp [h]
    · exact h

lemma applyConnectionInfo_ownDevice (info : Option ConnInfoJson) (dev : SyncthingDev)
    (h : dev.status = SyncthingDevStatus.OwnDevice) :
    (applyConnectionInfo info dev).status = SyncthingDevStatus.OwnDevice := by
  cases info with
  | none => exact h
  | some c => simp [applyConnectionInfo, h]

lemma updateFirstDev_forall (devs : List SyncthingDev) (devId : String)
    (f : SyncthingDev → SyncthingDev)
    (P : SyncthingDev → SyncthingDev → Prop)
    (hf : ∀ d, P d (f d)) (hid : ∀ d, P d d) :
    List.Forall₂ P devs (updateFirstDev devs devId f) := by
  induction devs with
  | nil => exact List.Forall₂.nil
  | cons d rest ih =>
    unfold updateFirstDev
    by_cases hd : d.id = devId
    · rw [if_pos hd]
      exact List.Forall₂.cons (hf d) (List.forall₂_same.mpr fun x _ => hid x)
    · rw [if_neg hd]
      exact List.Forall₂.cons (hid d) ih

/-- Claim C7: neither a `Device*` event nor a connections-poll result ever
moves a device's status away from OwnDevice. The relation holds pointwise
between the device list before and after each handler, for every event type
and payload. -/
theorem deviceHandlers_preserve_ownDevice (s : SyncthingConnection) (t : Nat)
    (eventType : String) (d : EventData) (now : Nat) (p : ConnectionsPayload) :
    List.Forall₂
      (fun a b => a.status = SyncthingDevStatus.OwnDevice →
        b.status = SyncthingDevStatus.OwnDevice)
      s.devs (readDeviceEvent s t eventType d).1.devs
    ∧ List.Forall₂
      (fun a b => a.status = SyncthingDevStatus.OwnDevice →
        b.status = SyncthingDevStatus.OwnDevice)
      s.devs (readConnections s now (ReplyOutcome.noError (some p))).1.devs := by
  constructor
  · unfold readDeviceEvent
    split
    · exact List.forall₂_same.mpr fun x _ => id
    · split
      · exact List.forall₂_same.mpr fun x _ => id
      · refine updateFirstDev_forall _ _ _ _ ?_ ?_
        · intro dev hown
          exact applyDeviceEvent_ownDevice eventType dev hown
        · intro dev hown
          exact hown
  · unfold readConnections
    dsimp only
    rw [List.forall₂_map_right_iff]
    refine List.forall₂_same.mpr fun dev _ hown => ?_
    exact applyConnectionInfo_ownDevice _ dev hown

/-! ### Claim C8 -/

/-- The transfer-rate formula in the words of the spec: `(currentBytes −
previousBytes) × 0.008 / elapsedSeconds`, with the subtraction read as exact
integer subtraction. Declared for comparison with the source-derived
`computeRate`. -/
def specTransferRate (cur prev : Nat) (transferTime : ℚ) : ℚ :=
  ((cur : ℚ) - (prev : ℚ)) * (8 / 1000) / transferTime

lemma sub64_eq_of_le {a b : Nat} (hba : b ≤ a) (ha : a < 2 ^ 64) : sub64 a b = a - b := by
  have hb : b < 2 ^ 64 := lt_of_le_of_lt hba ha
  unfold sub64
  rw [Nat.mod_eq_of_lt ha, Nat.mod_eq_of_lt hb]
  omega

/-- Counterexample for claim C8: when the byte counter decreases (daemon
restart), the uint64 subtraction wraps around, so the computed rate differs
from the claim's formula `(currentBytes − previousBytes) × 0.008 / elapsed`:
at current 0, previous 1000, elapsed 1 the code yields a huge positive rate
where the formula demands −8. -/
theorem computeRate_wraps_on_counter_decrease :
    computeRate true 1 0 1000 ≠ specTransferRate 0 1000 1
    ∧ computeRate true 1 0 1000 = ((2 ^ 64 - 1000 : Nat) : ℚ) * (8 / 1000)
    ∧ specTransferRate 0 1000 1 = -8 := by
  have hc : computeRate true 1 0 1000 = ((2 ^ 64 - 1000 : Nat) : ℚ) * (8 / 1000) := by
    unfold computeRate
    rw [if_pos ⟨rfl, by norm_num⟩]
    norm_num [sub64]
  have hs : specTransferRate 0 1000 1 = -8 := by
    unfold specTransferRate
    norm_num
  refine ⟨?_, hc, hs⟩
  rw [hc, hs]
  norm_num

/-- Claim C8 as amended: the rates are exactly 0 when no previous sample
exists or the elapsed time is zero (in particular never infinite or NaN), and
they equal `(currentBytes − previousBytes) × 0.008 / elapsedSeconds` whenever
additionally the counter did not decrease (otherwise the uint64 difference
wraps modulo `2^64`); `readConnections` computes both rates with exactly this
function, with the previous-sample flag and the elapsed seconds derived from
the last update timestamp. -/
theorem transferRate_zero_and_formula (hasPrevSample : Bool) (transferTime : ℚ)
    (cur prev : Nat) :
    ((hasPrevSample = false ∨ transferTime = 0) →
      computeRate hasPrevSample transferTime cur prev = 0)
    ∧ (hasPrevSample = true → transferTime ≠ 0 → prev ≤ cur → cur < 2 ^ 64 →
      computeRate hasPrevSample transferTime cur prev = specTransferRate cur prev transferTime)
    ∧ (∀ (s : SyncthingConnection) (now : Nat) (p : ConnectionsPayload),
      (readConnections s now (ReplyOutcome.noError (some p))).1.totalIncomingRate
        = computeRate (decide (s.lastConnectionsUpdate ≠ 0))
            (((now : ℚ) - (s.lastConnectionsUpdate : ℚ)) / 10 ^ 7)
            p.inBytesTotal s.totalIncomingTraffic
      ∧ (readConnections s now (ReplyOutcome.noError (some p))).1.totalOutgoingRate
        = computeRate (decide (s.lastConnectionsUpdate ≠ 0))
            (((now : ℚ) - (s.lastConnectionsUpdate : ℚ)) / 10 ^ 7)
            p.outBytesTotal s.totalOutgoingTraffic) := by
  refine ⟨?_, ?_, ?_⟩
  · intro h
    unfold computeRate
    rcases h with h | h
    · rw [if_neg]
      rintro ⟨h1, -⟩
      rw [h] at h1
      exact Bool.false_ne_true h1
    · rw [if_neg]
      rintro ⟨-, h2⟩
      exact h2 h
  · intro hp ht hle hlt
    unfold computeRate specTransferRate
    rw [if_pos ⟨hp, ht⟩, sub64_eq_of_le hle hlt, Nat.cast_sub hle]
  · intro s now p
    exact ⟨rfl, rfl⟩

/-- Witness for claim C8 (amended): with a previous sample, 10 elapsed
seconds and counters 1000 → 2000 both readings of the rate agree with the
formula value 0.8. -/
theorem transferRate_zero_and_formula_witness :
    ((true = false ∨ (10 : ℚ) = 0) → computeRate true 10 2000 1000 = 0)
    ∧ (true = true → (10 : ℚ) ≠ 0 → 1000 ≤ 2000 → 2000 < 2 ^ 64 →
      computeRate true 10 2000 1000 = specTransferRate 2000 1000 10)
    ∧ (∀ (s : SyncthingConnection) (now : Nat) (p : ConnectionsPayload),
      (readConnections s now (ReplyOutcome.noError (some p))).1.totalIncomingRate
        = computeRate (decide (s.lastConnectionsUpdate ≠ 0))
            (((now : ℚ) - (s.lastConnectionsUpdate : ℚ)) / 10 ^ 7)
            p.inBytesTotal s.totalIncomingTraffic
      ∧ (readConnections s now (ReplyOutcome.noError (some p))).1.totalOutgoingRate
        = computeRate (decide (s.lastConnectionsUpdate ≠ 0))
            (((now : ℚ) - (s.lastConnectionsUpdate : ℚ)) / 10 ^ 7)
            p.outBytesTotal s.totalOutgoingTraffic) :=
  transferRate_zero_and_formula true 10 2000 1000

/-! ### Claim C9 -/

/-- Counterexample for claim C9: a `DownloadProgress` payload that reports
more blocks downloaded than the total (2 of 1) drives the derived percentage
to 200, outside [0,100]. -/
theorem downloadPercentage_exceeds_100 :
    ((readDownloadProgressEvent { dirs := [{ id := "a" }] }
        [("a", [("f", { blocksAlreadyDownloaded := 2, totalNumberOfBlocks := 1 })])]).1.dirs.map
      SyncthingDir.downloadPercentage) = [200]
    ∧ ¬ (200 : Nat) ≤ 100 := by
  constructor
  · decide
  · decide

lemma downloadPercentage_le_100 (downloaded total : Int)
    (hle : downloaded ≤ total) (hlt : total < 2 ^ 32) :
    downloadPercentage downloaded total ≤ 100 := by
  unfold downloadPercentage
  split
  case isFalse => exact Nat.zero_le _
  case isTrue hc =>
    obtain ⟨hd, ht⟩ := hc
    have hdlt : downloaded < 2 ^ 32 := lt_of_le_of_lt hle hlt
    have hda : toUInt32Nat downloaded = downloaded.toNat := by
      unfold toUInt32Nat
      rw [Int.emod_eq_of_lt (le_of_lt hd) hdlt]
    have hta : toUInt32Nat total = total.toNat := by
      unfold toUInt32Nat
      rw [Int.emod_eq_of_lt (le_of_lt ht) hlt]
    rw [hda, hta]
    have ha : 0 < downloaded.toNat := by omega
    have hab : downloaded.toNat ≤ total.toNat := by omega
    have hb : total.toNat < 2 ^ 32 := by omega
    have hbpos : 0 < total.toNat := lt_of_lt_of_le ha hab
    have key : downloaded.toNat * 100 % 2 ^ 32 < 101 * total.toNat := by
      by_cases hsmall : downloaded.toNat * 100 < 2 ^ 32
      · rw [Nat.mod_eq_of_lt hsmall]
        have : downloaded.toNat * 100 ≤ total.toNat * 100 :=
          Nat.mul_le_mul_right _ hab
        omega
      · have h1 : downloaded.toNat * 100 % 2 ^ 32 < 2 ^ 32 :=
          Nat.mod_lt _ (by norm_num)
        omega
    exact Nat.lt_succ_iff.mp ((Nat.div_lt_iff_lt_mul hbpos).mpr key)

/-- Claim C9 as amended: after a `DownloadProgress` event every directory's
percentage is derived by `downloadPercentage` from its block aggregates; it is
0 whenever the total (or the downloaded count) is not positive — in
particular when the total is 0 — and it lies within [0,100] whenever the
payload is consistent (downloaded ≤ total, with the total representable in 32
bits); a payload claiming more downloaded than total blocks may exceed 100. -/
theorem downloadProgress_percentage_bounds (s : SyncthingConnection)
    (folderItems : List (String × List (String × DownloadItemJson))) :
    ∀ d ∈ (readDownloadProgressEvent s folderItems).1.dirs,
      d.downloadPercentage
          = downloadPercentage d.blocksAlreadyDownloaded d.blocksToBeDownloaded
      ∧ (d.blocksToBeDownloaded = 0 → d.downloadPercentage = 0)
      ∧ (d.blocksAlreadyDownloaded ≤ 0 → d.downloadPercentage = 0)
      ∧ (d.blocksAlreadyDownloaded ≤ d.blocksToBeDownloaded →
          d.blocksToBeDownloaded < 2 ^ 32 → d.downloadPercentage ≤ 100) := by
  intro d hd
  unfold readDownloadProgressEvent at hd
  dsimp only at hd
  rw [List.mem_map] at hd
  obtain ⟨d0, -, rfl⟩ := hd
  refine ⟨rfl, ?_, ?_, ?_⟩
  · intro h0
    dsimp only at h0 ⊢
    rw [h0]
    unfold downloadPercentage
    rw [if_neg]
    rintro ⟨-, h2⟩
    omega
  · intro h0
    dsimp only at h0 ⊢
    unfold downloadPercentage
    rw [if_neg]
    rintro ⟨h1, -⟩
    omega
  · intro h1 h2
    exact downloadPercentage_le_100 _ _ h1 h2

/-- Witness for claim C9 (amended): the empty payload leaves the single
directory with zero aggregates and percentage 0, within bounds. -/
theorem downloadProgress_percentage_bounds_witness :
    ({ id := "a" } : SyncthingDir).downloadPercentage
        = downloadPercentage ({ id := "a" } : SyncthingDir).blocksAlreadyDownloaded
            ({ id := "a" } : SyncthingDir).blocksToBeDownloaded
    ∧ (({ id := "a" } : SyncthingDir).blocksToBeDownloaded = 0 →
        ({ id := "a" } : SyncthingDir).downloadPercentage = 0)
    ∧ (({ id := "a" } : SyncthingDir).blocksAlreadyDownloaded ≤ 0 →
        ({ id := "a" } : SyncthingDir).downloadPercentage = 0)
    ∧ (({ id := "a" } : SyncthingDir).blocksAlreadyDownloaded
          ≤ ({ id := "a" } : SyncthingDir).blocksToBeDownloaded →
        ({ id := "a" } : SyncthingDir).blocksToBeDownloaded < 2 ^ 32 →
        ({ id := "a" } : SyncthingDir).downloadPercentage ≤ 100) :=
  downloadProgress_percentage_bounds { dirs := [{ id := "a" }] } [] { id := "a" } (by decide)

/-- Witness for claim C10: a finished deletion on folder `a` stores the flag
false (action equals `delete`), both at the folder and connection level. -/
theorem readItemFinished_deleted_flag_witness :
    ((readItemFinished { dirs := [{ id := "a" }] } 5
        { folder := "a", item := "f", action := "delete" }).1.dirs.getD 0 {}).lastFileDeleted
        = decide (("delete" : String) ≠ "delete")
    ∧ ((5 : Nat) > ({ dirs := [{ id := "a" }] } : SyncthingConnection).lastFileTime →
        (readItemFinished { dirs := [{ id := "a" }] } 5
          { folder := "a", item := "f", action := "delete" }).1.lastFileDeleted
          = decide (("delete" : String) ≠ "delete")) :=
  readItemFinished_deleted_flag { dirs := [{ id := "a" }] } 5
    { folder := "a", item := "f", action := "delete" } 0
    (by decide) (by decide) (by decide) (by decide)

end Syncthing
